import Mathlib

/-!
Shallow embedding of `06_gpu_and_ml/vllm_inference_swallow_13B.py`.

The file is a deployment script: module constants, a weight-download
function, a container-image specification, a `Model` class whose
lifecycle method loads an external LLM, and a `generate` method that
formats prompts, makes one batched call into the external library, and
prints the results.  External effects (the vLLM constructor and its
`generate` call, `os.makedirs`, `snapshot_download`, `move_cache`) are
abstract function parameters; fallible operations return `Except`.
-/

set_option maxRecDepth 10000

/-- Module constant `MODEL_DIR` (line 21 of the source). -/
def MODEL_DIR : String := "/model"

/-- Module constant `BASE_MODEL` (line 22 of the source). -/
def BASE_MODEL : String := "TheBloke/Swallow-13B-Instruct-AWQ"

/-- The literal prompt template assigned to `self.template` in
`Model.__enter__` (lines 84-90).  The braces of the single format field
are written with hex escapes. -/
def Model.template : String := "以下に、あるタスクを説明する指示があります。リクエストを適切に完了するための回答を記述してください。\n\n### 指示:\n\x7bprompt\x7d\n\n### 応答:\n"

/-- The part of the template before the format field. -/
def templateBefore : String := "以下に、あるタスクを説明する指示があります。リクエストを適切に完了するための回答を記述してください。\n\n### 指示:\n"

/-- The part of the template after the format field. -/
def templateAfter : String := "\n\n### 応答:\n"

/-- Opening brace character. -/
def lbrace : Char := Char.ofNat 123

/-- Closing brace character. -/
def rbrace : Char := Char.ofNat 125

/-- Model of CPython `str.format` with keyword arguments `subs`, scanning
the template character by character.  The second argument is `none` while
scanning literal text and `some acc` while collecting a field name (in
reverse).  A field is replaced by its keyword argument; a missing keyword
raises `KeyError`; an unterminated or stray brace raises `ValueError`.
Brace-escape pairs are not modelled: the template contains none. -/
def pyFormatAux (subs : String → Option String) :
    List Char → Option (List Char) → Except String (List Char)
  | [], none => Except.ok []
  | [], some _ => Except.error "ValueError: Single brace encountered in format string"
  | c :: rest, none =>
    if c = lbrace then
      pyFormatAux subs rest (some [])
    else if c = rbrace then
      Except.error "ValueError: Single brace encountered in format string"
    else
      match pyFormatAux subs rest none with
      | Except.ok tail => Except.ok (c :: tail)
      | Except.error e => Except.error e
  | c :: rest, some acc =>
    if c = rbrace then
      match subs (String.mk acc.reverse) with
      | some v =>
        match pyFormatAux subs rest none with
        | Except.ok tail => Except.ok (v.data ++ tail)
        | Except.error e => Except.error e
      | none => Except.error "KeyError"
    else
      pyFormatAux subs rest (some (c :: acc))

/-- `t.format(**subs)` as a `String`-to-`String` operation. -/
def pyFormatKw (subs : String → Option String) (t : String) : Except String String :=
  match pyFormatAux subs t.data none with
  | Except.ok cs => Except.ok (String.mk cs)
  | Except.error e => Except.error e

/-- `t.format(prompt=q)` — the exact call made on line 97 of the source. -/
def pyFormat (t q : String) : Except String String :=
  pyFormatKw (fun n => if n = "prompt" then some q else none) t

/-- The format fields (names between braces) occurring in a string. -/
def collectFieldsAux : List Char → Option (List Char) → List String
  | [], _ => []
  | c :: rest, none =>
    if c = lbrace then collectFieldsAux rest (some [])
    else collectFieldsAux rest none
  | c :: rest, some acc =>
    if c = rbrace then String.mk acc.reverse :: collectFieldsAux rest none
    else collectFieldsAux rest (some (c :: acc))

/-- Names of the substitution slots of a format string. -/
def fieldNames (s : String) : List String :=
  collectFieldsAux s.data none

/-- The `vllm.SamplingParams` record, keeping only the keyword parameters
the script passes (lines 100-105). -/
structure SamplingParams where
  temperature : ℚ
  top_p : ℚ
  max_tokens : Nat
  presence_penalty : ℚ
deriving DecidableEq

/-- The sampling parameters constructed in `Model.generate`. -/
def sampling_params : SamplingParams :=
  { temperature := 0.75, top_p := 1, max_tokens := 800, presence_penalty := 1.15 }

/-- One completion of a vLLM `RequestOutput` (`.text`, `.token_ids`). -/
structure CompletionOutput where
  text : String
  token_ids : List Nat
deriving DecidableEq

/-- One element of the list returned by `llm.generate`. -/
structure RequestOutput where
  prompt : String
  outputs : List CompletionOutput
deriving DecidableEq

/-- Python `print(*args, sep=sep)`: the arguments joined by the
separator, with the default end-of-line appended. -/
def pyPrint (args : List String) (sep : String) : String :=
  String.intercalate sep args ++ "\n"

/-- Python values, as far as this script returns them; the `generate`
method has no `return` statement, so it returns `None`. -/
inductive PyObject where
  | none
  | str (s : String)
  | int (n : Int)
deriving DecidableEq

/-- The names the `generate` method can read or write: the module
constants, the template attribute set by `__enter__`, and the argument
list. -/
structure PyState where
  model_dir : String
  base_model : String
  template : String
  user_questions : List String
deriving DecidableEq

/-- What a call to `Model.generate` produces besides its return value:
the invocations of the external `llm.generate` (arguments of each call)
and the lines printed to stdout. -/
structure GenerateOutcome where
  llm_calls : List (List String × SamplingParams)
  printed : List String
  returned : PyObject
deriving DecidableEq

/-- The `for output in result:` loop of `Model.generate` (lines 107-110):
threads `num_tokens` and the printed lines; `output.outputs[0]` on an
empty list raises `IndexError`. -/
def generateLoop : List RequestOutput → Nat → List String →
    Except String (Nat × List String)
  | [], num_tokens, lines => Except.ok (num_tokens, lines)
  | output :: rest, num_tokens, lines =>
    match output.outputs with
    | [] => Except.error "IndexError: list index out of range"
    | first :: _ =>
      generateLoop rest (num_tokens + first.token_ids.length)
        (lines ++ [pyPrint [output.prompt, first.text, "\n\n"] ""])

/-- `Model.generate` (lines 92-111): builds the prompts list by
formatting each question with the template, constructs the fixed
sampling parameters, makes one call to the external `llm_generate`,
then runs the print loop and prints the token-count summary.  Any raise
propagates as `Except.error`; the state is returned unchanged alongside
the outcome. -/
def Model.generate
    (llm_generate : List String → SamplingParams → Except String (List RequestOutput))
    (st : PyState) : Except String (GenerateOutcome × PyState) :=
  match st.user_questions.mapM (fun q => pyFormat st.template q) with
  | Except.error e => Except.error e
  | Except.ok prompts =>
    match llm_generate prompts sampling_params with
    | Except.error e => Except.error e
    | Except.ok result =>
      match generateLoop result 0 [] with
      | Except.error e => Except.error e
      | Except.ok (num_tokens, lines) =>
        Except.ok
          ({ llm_calls := [(prompts, sampling_params)],
             printed := lines ++
               [pyPrint ["Generated " ++ toString num_tokens ++ " tokens"] " "],
             returned := PyObject.none }, st)

/-- The arguments of a call to the `vllm.LLM` constructor: one positional
model path and the optional keyword parameters the script or its comments
mention (line 83 passes `quantization` and `dtype`; the comment on line 82
mentions `trust_remote_code`). -/
structure LLMConstructorCall where
  model : String
  quantization : Option String
  dtype : Option String
  trust_remote_code : Option Bool
deriving DecidableEq

/-- How many keyword parameters a constructor call passes. -/
def kwargCount (c : LLMConstructorCall) : Nat :=
  (if c.quantization.isSome then 1 else 0) +
  (if c.dtype.isSome then 1 else 0) +
  (if c.trust_remote_code.isSome then 1 else 0)

/-- The object state established by `Model.__enter__`. -/
structure ModelState (H : Type) where
  llm : H
  template : String

/-- `Model.__enter__` (lines 79-90): one call to the external constructor
with `MODEL_DIR`, `quantization="awq"`, `dtype="auto"`, and the template
assignment.  Returns the resulting state together with the list of
constructor calls made. -/
def Model.enter {H : Type} (LLMc : LLMConstructorCall → H) :
    ModelState H × List LLMConstructorCall :=
  let call : LLMConstructorCall :=
    { model := MODEL_DIR, quantization := some "awq", dtype := some "auto",
      trust_remote_code := none }
  ({ llm := LLMc call, template := Model.template }, [call])

/-- The external calls `download_model_to_folder` can make. -/
inductive DownloadCall where
  | makedirs (path : String) (exist_ok : Bool)
  | snapshot_download (repo : String) (local_dir : String)
  | move_cache
deriving DecidableEq

/-- Whether a call is the `snapshot_download` one. -/
def DownloadCall.isSnapshot : DownloadCall → Bool
  | DownloadCall.snapshot_download _ _ => true
  | _ => false

/-- `download_model_to_folder` (lines 37-47): `os.makedirs(MODEL_DIR,
exist_ok=True)`, then `snapshot_download(BASE_MODEL, local_dir=MODEL_DIR)`,
then `move_cache()`.  Each effect is an abstract fallible function; a
raise propagates; on success the list of calls made is returned. -/
def download_model_to_folder
    (makedirs : String → Bool → Except String Unit)
    (snapshot_download : String → String → Except String Unit)
    (move_cache : Unit → Except String Unit) :
    Except String (List DownloadCall) :=
  match makedirs MODEL_DIR true with
  | Except.error e => Except.error e
  | Except.ok _ =>
    match snapshot_download BASE_MODEL MODEL_DIR with
    | Except.error e => Except.error e
    | Except.ok _ =>
      match move_cache () with
      | Except.error e => Except.error e
      | Except.ok _ =>
        Except.ok
          [DownloadCall.makedirs MODEL_DIR true,
           DownloadCall.snapshot_download BASE_MODEL MODEL_DIR,
           DownloadCall.move_cache]

/-- One step of the container-image builder chain (lines 54-65). -/
inductive ImageOp where
  | from_registry (base : String) (add_python : String)
  | pip_install (packages : List String)
  | env (vars : List (String × String))
  | run_function (fn : String) (timeout : Nat)
deriving DecidableEq

/-- The `image` definition (lines 54-65) as the sequence of builder
steps applied. -/
def image : List ImageOp :=
  [ImageOp.from_registry "nvidia/cuda:12.1.0-base-ubuntu22.04" "3.10",
   ImageOp.pip_install ["vllm==0.2.6", "huggingface_hub==0.19.4", "hf-transfer==0.1.4"],
   ImageOp.env [("HF_HUB_ENABLE_HF_TRANSFER", "1")],
   ImageOp.run_function "download_model_to_folder" (60 * 20)]

/-- All environment variables set across an image specification. -/
def envVarsSet (ops : List ImageOp) : List (String × String) :=
  ops.flatMap fun op =>
    match op with
    | ImageOp.env vs => vs
    | _ => []

/-- All build-time function executions of an image specification, with
their timeouts. -/
def runFunctionsOf (ops : List ImageOp) : List (String × Nat) :=
  ops.filterMap fun op =>
    match op with
    | ImageOp.run_function f t => some (f, t)
    | _ => none

/-- Substring as concatenation decomposition. -/
def isSubstringOf (sub s : String) : Prop :=
  ∃ a b, s = a ++ sub ++ b

/-- Formatting a question with the fixed template, as a total function
(justified by `format_template`). -/
def formatQ (q : String) : String :=
  templateBefore ++ q ++ templateAfter

/-- The first completion of a request output (`outputs[0]`), with a
default for the total statement of the loop lemma. -/
def headOutput (o : RequestOutput) : CompletionOutput :=
  o.outputs.headD { text := "", token_ids := [] }

/-- The stdout line the loop prints for one request output. -/
def printedLine (o : RequestOutput) : String :=
  pyPrint [o.prompt, (headOutput o).text, "\n\n"] ""

/-- The token count the loop accumulates for one request output. -/
def tokensOfFirst (o : RequestOutput) : Nat :=
  (headOutput o).token_ids.length

/-- An empty run: no questions, a library call returning the empty list. -/
def st0 : PyState :=
  { model_dir := MODEL_DIR, base_model := BASE_MODEL, template := Model.template,
    user_questions := [] }

/-- A stub for the external batch-generate call returning no outputs. -/
def llm0 : List String → SamplingParams → Except String (List RequestOutput) :=
  fun _ _ => Except.ok []

/-- The outcome of `Model.generate` on the empty run. -/
def out0 : GenerateOutcome :=
  { llm_calls := [([], sampling_params)],
    printed := [pyPrint ["Generated " ++ toString 0 ++ " tokens"] " "],
    returned := PyObject.none }

/-- A concrete state with two of the questions from the scripts
entry point. -/
def testState : PyState :=
  { model_dir := MODEL_DIR, base_model := BASE_MODEL, template := Model.template,
    user_questions := ["9と8の積は何ですか？", "ハリーは誰を風船に変えますか？"] }

/-- A request output with one completion, echoing the prompt. -/
def testOutput (p : String) : RequestOutput :=
  { prompt := p, outputs := [{ text := "A", token_ids := [1, 2, 3] }] }

/-- A stub for the external batch-generate call answering every prompt. -/
def testLlm : List String → SamplingParams → Except String (List RequestOutput) :=
  fun prompts _ => Except.ok (prompts.map testOutput)

/-- The value `testLlm` returns on the prompts built from `testState`. -/
def testResult : List RequestOutput :=
  (testState.user_questions.map formatQ).map testOutput

/-- Formatting the template with the single `prompt` keyword substitutes
the question between the fixed surrounding text, for every question. -/
theorem format_template (q : String) :
    pyFormat Model.template q = Except.ok (templateBefore ++ q ++ templateAfter) := rfl

/-- The prompts list of `Model.generate`: formatting never fails on the
fixed template and maps each question in order. -/
theorem mapM_format_template (qs : List String) :
    qs.mapM (fun q => pyFormat Model.template q) = Except.ok (qs.map formatQ) := by
  induction qs with
  | nil => rfl
  | cons q qs ih =>
    rw [List.mapM_cons]
    show (pyFormat Model.template q >>= fun x =>
      qs.mapM (fun q => pyFormat Model.template q) >>= fun xs => pure (x :: xs)) = _
    rw [format_template, ih]
    rfl

/-- The print loop: when every request output has at least one
completion, the loop returns the accumulated token count plus the sum of
the first-completion token counts, and appends one printed line per
request output. -/
theorem generateLoop_spec (outs : List RequestOutput) (n : Nat) (lines : List String)
    (h : ∀ o ∈ outs, o.outputs ≠ []) :
    generateLoop outs n lines =
      Except.ok (n + (outs.map tokensOfFirst).sum, lines ++ outs.map printedLine) := by
  induction outs generalizing n lines with
  | nil => simp [generateLoop]
  | cons o rest ih =>
    have ho : o.outputs ≠ [] := h o (List.mem_cons_self o rest)
    match hout : o.outputs with
    | [] => exact absurd hout ho
    | first :: cs =>
      have hrest : ∀ x ∈ rest, x.outputs ≠ [] := fun x hx => h x (List.mem_cons_of_mem o hx)
      simp only [generateLoop, hout]
      rw [ih _ _ hrest]
      simp [tokensOfFirst, printedLine, headOutput, hout]
      omega

/-- Full characterisation of a successful `Model.generate` call: one
library call on the formatted prompts with the fixed sampling
parameters, one printed line per output plus the token summary, return
value `None`, state unchanged. -/
theorem generate_spec
    (llm : List String → SamplingParams → Except String (List RequestOutput))
    (st : PyState) (result : List RequestOutput)
    (hT : st.template = Model.template)
    (hllm : llm (st.user_questions.map formatQ) sampling_params = Except.ok result)
    (hne : ∀ o ∈ result, o.outputs ≠ []) :
    Model.generate llm st = Except.ok
      ({ llm_calls := [(st.user_questions.map formatQ, sampling_params)],
         printed := result.map printedLine ++
           [pyPrint ["Generated " ++ toString ((result.map tokensOfFirst).sum) ++ " tokens"] " "],
         returned := PyObject.none }, st) := by
  unfold Model.generate
  rw [hT, mapM_format_template]
  dsimp only
  rw [hllm]
  dsimp only
  rw [generateLoop_spec result 0 [] hne]
  simp

/-- Claim C1: for every list of user questions, `Model.generate` builds
exactly one prompt per question (every prompts list passed to the
library call has the length of the question list) and the print loop
emits exactly one line per returned output (plus the final token
summary). -/
theorem generate_one_per_input
    (llm : List String → SamplingParams → Except String (List RequestOutput))
    (st : PyState) (result : List RequestOutput)
    (hT : st.template = Model.template)
    (hllm : llm (st.user_questions.map formatQ) sampling_params = Except.ok result)
    (hne : ∀ o ∈ result, o.outputs ≠ []) :
    ∃ out, Model.generate llm st = Except.ok (out, st) ∧
      (∀ c ∈ out.llm_calls, c.1.length = st.user_questions.length) ∧
      out.printed.length = result.length + 1 := by
  refine ⟨_, generate_spec llm st result hT hllm hne, ?_, ?_⟩
  · intro c hc
    simp only [List.mem_singleton] at hc
    rw [hc]
    exact List.length_map _ _
  · simp

/-- Witness for C1 at a concrete two-question list. -/
theorem generate_one_per_input_witness :
    (testState.template = Model.template) ∧
    (testLlm (testState.user_questions.map formatQ) sampling_params = Except.ok testResult) ∧
    (∀ o ∈ testResult, o.outputs ≠ []) ∧
    (∃ out, Model.generate testLlm testState = Except.ok (out, testState) ∧
      (∀ c ∈ out.llm_calls, c.1.length = testState.user_questions.length) ∧
      out.printed.length = testResult.length + 1) :=
  ⟨rfl, rfl, by decide,
   generate_one_per_input testLlm testState testResult rfl rfl (by decide)⟩

/-- Claim C2: `Model.generate` performs exactly these steps in order:
it formats each question into a prompt, makes a single call to the
external generate function with the fixed sampling parameters
(temperature 0.75, top_p 1, max_tokens 800, presence_penalty 1.15),
then prints each prompt and generated text and sums the token counts of
the first output of each result. -/
theorem generate_steps_fixed_params
    (llm : List String → SamplingParams → Except String (List RequestOutput))
    (st : PyState) (result : List RequestOutput)
    (hT : st.template = Model.template)
    (hllm : llm (st.user_questions.map formatQ) sampling_params = Except.ok result)
    (hne : ∀ o ∈ result, o.outputs ≠ []) :
    sampling_params = { temperature := 0.75, top_p := 1, max_tokens := 800,
                        presence_penalty := 1.15 } ∧
    Model.generate llm st = Except.ok
      ({ llm_calls := [(st.user_questions.map formatQ, sampling_params)],
         printed := result.map printedLine ++
           [pyPrint ["Generated " ++ toString ((result.map tokensOfFirst).sum) ++ " tokens"] " "],
         returned := PyObject.none }, st) :=
  ⟨rfl, generate_spec llm st result hT hllm hne⟩

/-- Witness for C2 at a concrete two-question list. -/
theorem generate_steps_fixed_params_witness :
    (testState.template = Model.template) ∧
    (testLlm (testState.user_questions.map formatQ) sampling_params = Except.ok testResult) ∧
    (∀ o ∈ testResult, o.outputs ≠ []) ∧
    (sampling_params = { temperature := 0.75, top_p := 1, max_tokens := 800,
                         presence_penalty := 1.15 } ∧
     Model.generate testLlm testState = Except.ok
       ({ llm_calls := [(testState.user_questions.map formatQ, sampling_params)],
          printed := testResult.map printedLine ++
            [pyPrint ["Generated " ++ toString ((testResult.map tokensOfFirst).sum) ++ " tokens"] " "],
          returned := PyObject.none }, testState)) :=
  ⟨rfl, rfl, by decide,
   generate_steps_fixed_params testLlm testState testResult rfl rfl (by decide)⟩

/-- Claim C3: `Model.generate` takes a list of strings and returns
nothing: whenever it returns at all, the returned Python value is
`None`. -/
theorem generate_returns_none
    (llm : List String → SamplingParams → Except String (List RequestOutput))
    (st : PyState) (out : GenerateOutcome) (st' : PyState)
    (h : Model.generate llm st = Except.ok (out, st')) :
    out.returned = PyObject.none := by
  unfold Model.generate at h
  split at h
  · exact absurd h (by simp)
  · split at h
    · exact absurd h (by simp)
    · split at h
      · exact absurd h (by simp)
      · simp only [Except.ok.injEq, Prod.mk.injEq] at h
        rw [← h.1]

/-- Witness for C3 on the empty run. -/
theorem generate_returns_none_witness :
    (Model.generate llm0 st0 = Except.ok (out0, st0)) ∧ out0.returned = PyObject.none :=
  ⟨rfl, generate_returns_none llm0 st0 out0 st0 rfl⟩

/-- Claim C4: no operation catches or transforms an exception: a failure
of `snapshot_download` propagates out of `download_model_to_folder`
unchanged, and a failure of the external generate call propagates out of
`Model.generate` unchanged. -/
theorem errors_propagate_uncaught
    (makedirs : String → Bool → Except String Unit)
    (snapshot_download : String → String → Except String Unit)
    (move_cache : Unit → Except String Unit) (e₁ : String)
    (h1 : makedirs MODEL_DIR true = Except.ok ())
    (h2 : snapshot_download BASE_MODEL MODEL_DIR = Except.error e₁)
    (llm : List String → SamplingParams → Except String (List RequestOutput))
    (st : PyState) (prompts : List String) (e₂ : String)
    (hfmt : st.user_questions.mapM (fun q => pyFormat st.template q) = Except.ok prompts)
    (hllm : llm prompts sampling_params = Except.error e₂) :
    download_model_to_folder makedirs snapshot_download move_cache = Except.error e₁ ∧
    Model.generate llm st = Except.error e₂ := by
  constructor
  · unfold download_model_to_folder
    rw [h1]
    dsimp only
    rw [h2]
  · unfold Model.generate
    rw [hfmt]
    dsimp only
    rw [hllm]

/-- Witness for C4 with one failing download and one failing library
call. -/
theorem errors_propagate_uncaught_witness :
    ((fun (_ : String) (_ : Bool) => (Except.ok () : Except String Unit)) MODEL_DIR true = Except.ok ()) ∧
    ((fun (_ : String) (_ : String) => (Except.error "download failed" : Except String Unit))
      BASE_MODEL MODEL_DIR = Except.error "download failed") ∧
    (st0.user_questions.mapM (fun q => pyFormat st0.template q) = Except.ok []) ∧
    ((fun (_ : List String) (_ : SamplingParams) =>
        (Except.error "CUDA out of memory" : Except String (List RequestOutput)))
      [] sampling_params = Except.error "CUDA out of memory") ∧
    (download_model_to_folder (fun _ _ => Except.ok ())
        (fun _ _ => Except.error "download failed") (fun _ => Except.ok ()) =
      Except.error "download failed" ∧
     Model.generate (fun _ _ => Except.error "CUDA out of memory") st0 =
      Except.error "CUDA out of memory") :=
  ⟨rfl, rfl, rfl, rfl,
   errors_propagate_uncaught (fun _ _ => Except.ok ())
     (fun _ _ => Except.error "download failed") (fun _ => Except.ok ())
     "download failed" rfl rfl
     (fun _ _ => Except.error "CUDA out of memory") st0 [] "CUDA out of memory" rfl rfl⟩

/-- Claim C5: the prompt template has exactly one substitution slot,
named `prompt`; formatting succeeds with that one keyword argument and
fails with a `KeyError` when it is absent. -/
theorem template_single_slot :
    fieldNames Model.template = ["prompt"] ∧
    (∀ q, pyFormat Model.template q = Except.ok (templateBefore ++ q ++ templateAfter)) ∧
    pyFormatKw (fun _ => none) Model.template = Except.error "KeyError" :=
  ⟨rfl, format_template, rfl⟩

/-- Claim C6: `Model.__enter__` makes a single call to the external
constructor, with the model directory as positional argument and exactly
the two keyword parameters `quantization="awq"` and `dtype="auto"`; the
resulting model is exactly the value of that call. -/
theorem enter_single_constructor_call {H : Type} (LLMc : LLMConstructorCall → H) :
    (Model.enter LLMc).2 = [{ model := MODEL_DIR, quantization := some "awq", dtype := some "auto", trust_remote_code := none }] ∧
    (Model.enter LLMc).1.llm = LLMc { model := MODEL_DIR, quantization := some "awq", dtype := some "auto", trust_remote_code := none } ∧
    kwargCount { model := MODEL_DIR, quantization := some "awq", dtype := some "auto", trust_remote_code := none } = 2 ∧
    (Model.enter LLMc).1.template = Model.template :=
  ⟨rfl, rfl, rfl, rfl⟩

/-- Counterexample to claim C7 as stated: with every effect succeeding,
`download_model_to_folder` does not perform only the single
`snapshot_download` call — it also creates the directory and moves the
cache. -/
theorem download_not_single_call :
    download_model_to_folder (fun _ _ => Except.ok ()) (fun _ _ => Except.ok ())
        (fun _ => Except.ok ()) ≠
      Except.ok [DownloadCall.snapshot_download BASE_MODEL MODEL_DIR] := by
  intro h
  simp [download_model_to_folder] at h

/-- Claim C7 (amended): `download_model_to_folder` calls
`snapshot_download` exactly once, with `BASE_MODEL` and `MODEL_DIR`, but
it is not the only call: it is preceded by `os.makedirs(MODEL_DIR,
exist_ok=True)` and followed by `move_cache()`. -/
theorem download_calls_amended
    (makedirs : String → Bool → Except String Unit)
    (snapshot_download : String → String → Except String Unit)
    (move_cache : Unit → Except String Unit)
    (h1 : makedirs MODEL_DIR true = Except.ok ())
    (h2 : snapshot_download BASE_MODEL MODEL_DIR = Except.ok ())
    (h3 : move_cache () = Except.ok ()) :
    download_model_to_folder makedirs snapshot_download move_cache =
      Except.ok [DownloadCall.makedirs MODEL_DIR true,
                 DownloadCall.snapshot_download BASE_MODEL MODEL_DIR,
                 DownloadCall.move_cache] ∧
    ([DownloadCall.makedirs MODEL_DIR true,
      DownloadCall.snapshot_download BASE_MODEL MODEL_DIR,
      DownloadCall.move_cache].filter (fun c => DownloadCall.isSnapshot c)).length = 1 := by
  constructor
  · unfold download_model_to_folder
    rw [h1]
    dsimp only
    rw [h2]
    dsimp only
    rw [h3]
  · rfl

/-- Witness for the amended C7 with all effects succeeding. -/
theorem download_calls_amended_witness :
    ((fun (_ : String) (_ : Bool) => (Except.ok () : Except String Unit)) MODEL_DIR true
      = Except.ok ()) ∧
    ((fun (_ : String) (_ : String) => (Except.ok () : Except String Unit)) BASE_MODEL MODEL_DIR
      = Except.ok ()) ∧
    ((fun (_ : Unit) => (Except.ok () : Except String Unit)) () = Except.ok ()) ∧
    (download_model_to_folder (fun _ _ => Except.ok ()) (fun _ _ => Except.ok ())
        (fun _ => Except.ok ()) =
      Except.ok [DownloadCall.makedirs MODEL_DIR true,
                 DownloadCall.snapshot_download BASE_MODEL MODEL_DIR,
                 DownloadCall.move_cache] ∧
     ([DownloadCall.makedirs MODEL_DIR true,
       DownloadCall.snapshot_download BASE_MODEL MODEL_DIR,
       DownloadCall.move_cache].filter (fun c => DownloadCall.isSnapshot c)).length = 1) :=
  ⟨rfl, rfl, rfl,
   download_calls_amended (fun _ _ => Except.ok ()) (fun _ _ => Except.ok ())
     (fun _ => Except.ok ()) rfl rfl rfl⟩

/-- Claim C8: the image specification sets exactly one environment
variable, `HF_HUB_ENABLE_HF_TRANSFER` to `"1"`, and executes exactly one
build-time function, `download_model_to_folder`, with a timeout of 1200
seconds. -/
theorem image_env_and_buildfn :
    envVarsSet image = [("HF_HUB_ENABLE_HF_TRANSFER", "1")] ∧
    runFunctionsOf image = [("download_model_to_folder", 1200)] :=
  ⟨rfl, rfl⟩

/-- Claim C9: prompt formatting is order- and content-preserving: the
i-th prompt equals the template with the i-th question substituted into
its single slot, and therefore contains the i-th question verbatim as a
substring. -/
theorem format_order_content_preserving
    (qs prompts : List String)
    (h : qs.mapM (fun q => pyFormat Model.template q) = Except.ok prompts) :
    prompts.length = qs.length ∧
    ∀ i (hq : i < qs.length) (hp : i < prompts.length),
      prompts.get ⟨i, hp⟩ = templateBefore ++ qs.get ⟨i, hq⟩ ++ templateAfter ∧
      isSubstringOf (qs.get ⟨i, hq⟩) (prompts.get ⟨i, hp⟩) := by
  rw [mapM_format_template] at h
  have hps : prompts = qs.map formatQ := by
    simpa using h.symm
  subst hps
  refine ⟨List.length_map _ _, ?_⟩
  intro i hq hp
  have hget : (qs.map formatQ).get ⟨i, hp⟩ = formatQ (qs.get ⟨i, hq⟩) := by
    simp
  rw [hget]
  exact ⟨rfl, ⟨templateBefore, templateAfter, rfl⟩⟩

/-- Witness for C9 at a concrete one-question list. -/
theorem format_order_content_preserving_witness :
    (["9と8の積は何ですか？"].mapM (fun q => pyFormat Model.template q) =
      Except.ok [templateBefore ++ "9と8の積は何ですか？" ++ templateAfter]) ∧
    ([templateBefore ++ "9と8の積は何ですか？" ++ templateAfter].length =
      ["9と8の積は何ですか？"].length ∧
     ∀ i (hq : i < (["9と8の積は何ですか？"] : List String).length)
       (hp : i < ([templateBefore ++ "9と8の積は何ですか？" ++ templateAfter] : List String).length),
       ([templateBefore ++ "9と8の積は何ですか？" ++ templateAfter] : List String).get ⟨i, hp⟩ =
         templateBefore ++ (["9と8の積は何ですか？"] : List String).get ⟨i, hq⟩ ++ templateAfter ∧
       isSubstringOf ((["9と8の積は何ですか？"] : List String).get ⟨i, hq⟩)
         (([templateBefore ++ "9と8の積は何ですか？" ++ templateAfter] : List String).get ⟨i, hp⟩)) :=
  ⟨rfl, format_order_content_preserving ["9と8の積は何ですか？"]
    [templateBefore ++ "9と8の積は何ですか？" ++ templateAfter] rfl⟩

/-- Claim C10: `Model.generate` leaves every name other than its printed
output unchanged: whenever it succeeds, the final state (the argument
list, the template, and the module constants) equals the initial
state. -/
theorem generate_frame
    (llm : List String → SamplingParams → Except String (List RequestOutput))
    (st : PyState) (out : GenerateOutcome) (st' : PyState)
    (h : Model.generate llm st = Except.ok (out, st')) :
    st'.user_questions = st.user_questions ∧ st'.template = st.template ∧
    st'.model_dir = st.model_dir ∧ st'.base_model = st.base_model ∧ st' = st := by
  unfold Model.generate at h
  split at h
  · exact absurd h (by simp)
  · split at h
    · exact absurd h (by simp)
    · split at h
      · exact absurd h (by simp)
      · simp only [Except.ok.injEq, Prod.mk.injEq] at h
        rw [← h.2]
        exact ⟨rfl, rfl, rfl, rfl, rfl⟩

/-- Witness for C10 on the empty run. -/
theorem generate_frame_witness :
    (Model.generate llm0 st0 = Except.ok (out0, st0)) ∧
    (st0.user_questions = st0.user_questions ∧ st0.template = st0.template ∧
     st0.model_dir = st0.model_dir ∧ st0.base_model = st0.base_model ∧ st0 = st0) :=
  ⟨rfl, generate_frame llm0 st0 out0 st0 rfl⟩
